import Mathlib

/-!
Verification development for the Key Wheel Converter plugin.

The Python module is shallowly embedded here.  Strings are modelled as
Lean strings (lists of unicode characters); the Python regular
expressions used by the parser are simple enough to be expressed as
structural predicates on character lists.  The class-level dictionary
built by the table construction is modelled as an association list with
pairwise distinct keys, so dictionary lookup coincides with the first
matching entry.
-/

set_option maxRecDepth 20000

/-- Python whitespace characters relevant to str.strip and str.split. -/
def pyIsSpace (c : Char) : Bool :=
  c == ' ' || c == '\t' || c == '\n' || c == '\r' || c == '\x0b' || c == '\x0c'

/-- Lowercase a single character in the ASCII range, as str.lower does on
the characters this plugin handles. -/
def pyLowerChar (c : Char) : Char :=
  if 'A' ≤ c && c ≤ 'Z' then Char.ofNat (c.toNat + 32) else c

/-- Uppercase a single character in the ASCII range, as str.upper does on
the characters this plugin handles. -/
def pyUpperChar (c : Char) : Char :=
  if 'a' ≤ c && c ≤ 'z' then Char.ofNat (c.toNat - 32) else c

/-- Model of str.strip: drop leading and trailing whitespace. -/
def pyStrip (cs : List Char) : List Char :=
  ((cs.dropWhile pyIsSpace).reverse.dropWhile pyIsSpace).reverse

/-- Whether the first list is an initial segment of the second. -/
def leadsWith : List Char → List Char → Bool
  | [], _ => true
  | _ :: _, [] => false
  | a :: as, b :: bs => a == b && leadsWith as bs

/-- Fuel-driven worker for pyReplace.  The fuel is the length of the
scanned list, which suffices because every step consumes at least one
character of the input. -/
def replFuel (old new : List Char) : Nat → List Char → List Char
  | _, [] => []
  | 0, s => s
  | f + 1, c :: rest =>
    if leadsWith old (c :: rest) && !old.isEmpty then
      new ++ replFuel old new f (List.drop (old.length - 1) rest)
    else
      c :: replFuel old new f rest

/-- Model of str.replace with a nonempty pattern: replace every
non-overlapping occurrence, scanning left to right. -/
def pyReplace (s old new : List Char) : List Char :=
  replFuel old new s.length s

/-- Worker for pySplit, accumulating the current token reversed. -/
def pySplitAux : List Char → List Char → List (List Char)
  | [], acc => if acc.isEmpty then [] else [acc.reverse]
  | c :: rest, acc =>
    if pyIsSpace c then
      if acc.isEmpty then pySplitAux rest [] else acc.reverse :: pySplitAux rest []
    else
      pySplitAux rest (c :: acc)

/-- Model of str.split with no arguments: split on runs of whitespace,
discarding empty tokens. -/
def pySplit (cs : List Char) : List (List Char) :=
  pySplitAux cs []

/-- Model of part[0:1].upper() + part[1:]. -/
def capFirst : List Char → List Char
  | [] => []
  | c :: rest => pyUpperChar c :: rest

/-- Value of a list of decimal digit characters, as Python int() computes
it on the digit substrings matched by the parser. -/
def digitsVal (ds : List Char) : Nat :=
  ds.foldl (fun a c => a * 10 + (c.toNat - 48)) 0

/-- Record holding the five notations of one canonical key: the value
type of the mapping dictionary built by the table construction. -/
structure KeyEntry where
  camelot : String
  openKey : String
  standard_s : String
  standard_t : String
  traktor : String
deriving DecidableEq

/-- The fixed list of 24 five-tuples (camelot, open, standard with
symbols, standard with text, traktor) from the table construction. -/
def keyTuples : List (String × String × String × String × String) :=
  [ ("1A", "6m", "A♭ Minor", "A-Flat Minor", "Abm"),
    ("1B", "6d", "B Major", "B Major", "B"),
    ("2A", "7m", "E♭ Minor", "E-Flat Minor", "Ebm"),
    ("2B", "7d", "F# Major", "F-Sharp Major", "F#"),
    ("3A", "8m", "B♭ Minor", "B-Flat Minor", "Bbm"),
    ("3B", "8d", "D♭ Major", "D-Flat Major", "Db"),
    ("4A", "9m", "F Minor", "F Minor", "Fm"),
    ("4B", "9d", "A♭ Major", "A-Flat Major", "Ab"),
    ("5A", "10m", "C Minor", "C Minor", "Cm"),
    ("5B", "10d", "E♭ Major", "E-Flat Major", "Eb"),
    ("6A", "11m", "G Minor", "G Minor", "Gm"),
    ("6B", "11d", "B♭ Major", "B-Flat Major", "Bb"),
    ("7A", "12m", "D Minor", "D Minor", "Dm"),
    ("7B", "12d", "F Major", "F Major", "F"),
    ("8A", "1m", "A Minor", "A Minor", "Am"),
    ("8B", "1d", "C Major", "C Major", "C"),
    ("9A", "2m", "E Minor", "E Minor", "Em"),
    ("9B", "2d", "G Major", "G Major", "G"),
    ("10A", "3m", "B Minor", "B Minor", "Bm"),
    ("10B", "3d", "D Major", "D Major", "D"),
    ("11A", "4m", "G♭ Minor", "G-Flat Minor", "Gbm"),
    ("11B", "4d", "A Major", "A Major", "A"),
    ("12A", "5m", "D♭ Minor", "D-Flat Minor", "Dbm"),
    ("12B", "5d", "E Major", "E Major", "E") ]

/-- The per-item dictionary value built inside the construction loop. -/
def tupleEntry (t : String × String × String × String × String) : KeyEntry :=
  { camelot := t.1
    openKey := t.2.1
    standard_s := t.2.2.1
    standard_t := t.2.2.2.1
    traktor := t.2.2.2.2 }

/-- The 24 canonical key records. -/
def canonicalEntries : List KeyEntry :=
  keyTuples.map tupleEntry

/-- The mapping dictionary after the table construction has run: each
item is registered under the strings at tuple indices 0, 3 and 4, that
is its camelot, standard-text and traktor spellings.  All 72 keys are
pairwise distinct, so association-list lookup models dictionary
lookup. -/
def KeyMap.keys : List (String × KeyEntry) :=
  (keyTuples.map (fun t =>
    [(t.1, tupleEntry t), (t.2.2.2.1, tupleEntry t), (t.2.2.2.2, tupleEntry t)])).flatten

/-- Alternate mapping for standard keys. -/
def KeyMap.s_alt : List (String × String) :=
  [ ("G-Flat Major", "F-Sharp Major"),
    ("D-Sharp Minor", "E-Flat Minor") ]

/-- Alternate mapping for traktor keys. -/
def KeyMap.t_alt : List (String × String) :=
  [ ("G#", "Ab"),
    ("A#", "Bb"),
    ("C#", "Db"),
    ("D#", "Eb"),
    ("G#m", "Abm"),
    ("A#m", "Bbm"),
    ("C#m", "Dbm"),
    ("D#m", "Ebm"),
    ("F#m", "Gbm") ]

/-- Dictionary membership and lookup on the mapping dictionary. -/
def keysFind (s : String) : Option KeyEntry :=
  (KeyMap.keys.find? (fun p => p.1 == s)).map (fun p => p.2)

/-- Indexing the per-key dictionary by the out_type string; an unknown
out_type corresponds to a Python KeyError and yields none. -/
def fieldOf (e : KeyEntry) (fmt : String) : Option String :=
  if fmt = "camelot" then some e.camelot
  else if fmt = "open" then some e.openKey
  else if fmt = "standard_s" then some e.standard_s
  else if fmt = "standard_t" then some e.standard_t
  else if fmt = "traktor" then some e.traktor
  else none

/-- The five out_type strings used by the registered script functions. -/
def outTypes : List String :=
  ["camelot", "open", "standard_s", "standard_t", "traktor"]

/-- Letters accepted after the digits by the camelot pattern. -/
def isCamelotLetter (c : Char) : Bool :=
  c == 'A' || c == 'B' || c == 'a' || c == 'b'

/-- Letters accepted after the digits by the open key pattern. -/
def isOpenLetter (c : Char) : Bool :=
  c == 'd' || c == 'm' || c == 'D' || c == 'M'

/-- Note letters accepted by the traktor pattern. -/
def isNoteLetter (c : Char) : Bool :=
  ('a' ≤ c && c ≤ 'g') || ('A' ≤ c && c ≤ 'G')

/-- Accidental characters accepted by the traktor pattern. -/
def isAccidentalChar (c : Char) : Bool :=
  c == '#' || c == 'B' || c == 'b'

/-- Minor markers accepted by the traktor pattern. -/
def isMinorMark (c : Char) : Bool :=
  c == 'm' || c == 'M'

/-- The anchored match of the regular expression for camelot keys: one or
two digits followed by one letter A or B in either case, then the end of
the string. -/
def matchCamelot : List Char → Bool
  | [d, l] => d.isDigit && isCamelotLetter l
  | [d1, d2, l] => d1.isDigit && d2.isDigit && isCamelotLetter l
  | _ => false

/-- The anchored match of the regular expression for open keys: one or
two digits followed by one letter d or m in either case, then the end of
the string. -/
def matchOpen : List Char → Bool
  | [d, l] => d.isDigit && isOpenLetter l
  | [d1, d2, l] => d1.isDigit && d2.isDigit && isOpenLetter l
  | _ => false

/-- The anchored match of the regular expression for traktor keys: a note
letter, an optional accidental, an optional minor marker, then the end
of the string. -/
def matchTraktor : List Char → Bool
  | [n] => isNoteLetter n
  | [n, x] => isNoteLetter n && (isAccidentalChar x || isMinorMark x)
  | [n, x, y] => isNoteLetter n && isAccidentalChar x && isMinorMark y
  | _ => false

/-- Numeric part of a matched open key string: int(text[0:-1]). -/
def openVal (t : List Char) : Nat :=
  digitsVal t.dropLast

/-- The single-character replacement chain applied to the trailing letter
of a matched open key string. -/
def letterMap (c : Char) : Char :=
  if c = 'm' then 'A' else if c = 'd' then 'B' else c

/-- Conversion of a matched, in-range open key string to its camelot
designation. -/
def openConv (t : List Char) : List Char :=
  Nat.toDigits 10 (((openVal t + 6) % 12) + 1) ++
    [letterMap (pyLowerChar (t.getLastD ' '))]

/-- The traktor branch of the parser: capitalize the first character,
replace the flat glyph, lowercase the remainder, then consult the
traktor alternate mapping. -/
def traktorBranch (t : List Char) : List Char :=
  let temp :=
    match t with
    | [] => []
    | c :: rest => pyUpperChar c :: (pyReplace rest ['♭'] ['b']).map pyLowerChar
  match (KeyMap.t_alt.find? (fun p => p.1.data == temp)).map (fun p => p.2.data) with
  | some v => v
  | none => temp

/-- The standard-name fallback branch of the parser. -/
def stdFallback (t : List Char) : List Char :=
  let t1 := pyReplace (pyReplace (t.map pyLowerChar) [' ', 's'] ['-', 's'])
      [' ', 'f'] ['-', 'f']
  let parts := pySplit (pyReplace (pyReplace t1 ['♭'] "-Flat".data) ['#'] "-Sharp".data)
  let joined := List.intercalate [' '] (parts.map capFirst)
  let temp := pyReplace (pyReplace joined ['-', 's'] ['-', 'S']) ['-', 'f'] ['-', 'F']
  match (KeyMap.s_alt.find? (fun p => p.1.data == temp)).map (fun p => p.2.data) with
  | some v => v
  | none => temp

/-- The tail of the pattern sequence reached when neither the camelot
pattern nor an in-range open key applies. -/
def parseTraktorStd (t : List Char) : List Char :=
  if matchTraktor t then traktorBranch t else stdFallback t

/-- The full parsing and normalization pass on character lists. -/
def parseChars (text : List Char) : List Char :=
  let t := pyStrip text
  if t.isEmpty then []
  else if matchCamelot t then t.map pyUpperChar
  else if matchOpen t then
    if 0 < openVal t ∧ openVal t < 13 then openConv t else parseTraktorStd t
  else parseTraktorStd t

/-- The helper that parses the input argument into a supported mapping
key format. -/
def KeyWheelConverter.parse_input (s : String) : String :=
  String.mk (parseChars s.data)

/-- Python error outcomes the converter can produce. -/
inductive PyErr where
  | attributeError
  | keyError
deriving DecidableEq

/-- Full model of the converter including its effects.  The first
argument models whether the plugin api has been injected; the result is
either a raised Python error or the returned string paired with the list
of diagnostic log events, each event recording the rejected input.  On
an unmatched input the converter calls debug on the logger of the class
api attribute, which raises an attribute error when the api is absent. -/
def converterRun (api : Option Unit) (text fmt : String) :
    Except PyErr (String × List String) :=
  match keysFind (KeyWheelConverter.parse_input text) with
  | none =>
    match api with
    | none => Except.error PyErr.attributeError
    | some _ => Except.ok ("", [text])
  | some e =>
    match fieldOf e fmt with
    | none => Except.error PyErr.keyError
    | some v => Except.ok (v, [])

/-- The converter as a value-level function: parse the input, return the
empty string when the parsed string is not a dictionary key, and
otherwise the field selected by the out_type string; none stands for a
raised KeyError on an unknown out_type. -/
def KeyWheelConverter.converter (text fmt : String) : Option String :=
  match keysFind (KeyWheelConverter.parse_input text) with
  | none => some ""
  | some e => fieldOf e fmt

/-- What the converter computes after parsing: dictionary lookup of the
parsed string, returning the empty string when absent and the requested
field when present. -/
def lookupOut (s fmt : String) : Option String :=
  match keysFind s with
  | none => some ""
  | some e => fieldOf e fmt

/-- Supporting list of the ten decimal digit characters. -/
def digitChars : List Char := ['0', '1', '2', '3', '4', '5', '6', '7', '8', '9']

/-- Supporting list of the letters accepted by the open key pattern. -/
def openLetters : List Char := ['d', 'm', 'D', 'M']

lemma open_letter_not_camelot {c : Char} (h : isOpenLetter c = true) :
    isCamelotLetter c = false := by
  simp only [isOpenLetter, Bool.or_eq_true, beq_iff_eq] at h
  rcases h with ((rfl | rfl) | rfl) | rfl <;> decide

lemma matchOpen_not_camelot : ∀ t, matchOpen t = true → matchCamelot t = false := by
  intro t h
  match t with
  | [] => simp [matchOpen] at h
  | [a] => simp [matchOpen] at h
  | [d, l] =>
    simp only [matchOpen, Bool.and_eq_true] at h
    simp [matchCamelot, open_letter_not_camelot h.2]
  | [d1, d2, l] =>
    simp only [matchOpen, Bool.and_eq_true] at h
    simp [matchCamelot, open_letter_not_camelot h.2]
  | a :: b :: c :: d :: rest => simp [matchOpen] at h

lemma matchCamelot_ne_nil {t : List Char} (h : matchCamelot t = true) :
    t.isEmpty = false := by
  cases t with
  | nil => exact absurd h (by decide)
  | cons a l => rfl

lemma matchOpen_ne_nil {t : List Char} (h : matchOpen t = true) :
    t.isEmpty = false := by
  cases t with
  | nil => exact absurd h (by decide)
  | cons a l => rfl

lemma parseChars_camelot (cs : List Char) (h : matchCamelot (pyStrip cs) = true) :
    parseChars cs = (pyStrip cs).map pyUpperChar := by
  have hne := matchCamelot_ne_nil h
  simp [parseChars, hne, h]

lemma parseChars_open (cs : List Char) (h : matchOpen (pyStrip cs) = true)
    (h2 : 0 < openVal (pyStrip cs)) (h3 : openVal (pyStrip cs) < 13) :
    parseChars cs = openConv (pyStrip cs) := by
  have hne := matchOpen_ne_nil h
  have hcam := matchOpen_not_camelot _ h
  simp [parseChars, hne, hcam, h, h2, h3]

lemma converter_eq_lookup (t fmt : String) :
    KeyWheelConverter.converter t fmt =
      lookupOut (KeyWheelConverter.parse_input t) fmt := rfl

lemma converterRun_unmatched (t fmt : String)
    (h : keysFind (KeyWheelConverter.parse_input t) = none) :
    converterRun (some ()) t fmt = Except.ok ("", [t]) := by
  unfold converterRun
  rw [h]

lemma converterRun_no_api_unmatched (t fmt : String)
    (h : keysFind (KeyWheelConverter.parse_input t) = none) :
    converterRun none t fmt = Except.error PyErr.attributeError := by
  unfold converterRun
  rw [h]

lemma converterRun_no_api_matched (t fmt : String) (e : KeyEntry)
    (h : keysFind (KeyWheelConverter.parse_input t) = some e) :
    converterRun none t fmt = converterRun (some ()) t fmt := by
  unfold converterRun
  rw [h]

lemma converter_unmatched (t fmt : String)
    (h : keysFind (KeyWheelConverter.parse_input t) = none) :
    KeyWheelConverter.converter t fmt = some "" := by
  rw [converter_eq_lookup]
  unfold lookupOut
  rw [h]

/-- C10 support: a string matched by the traktor pattern never contains
the flat glyph, so the substitution of that glyph inside the traktor
branch can never fire. -/
lemma traktor_no_flat : ∀ cs : List Char, matchTraktor cs = true → '♭' ∉ cs := by
  intro cs h hmem
  match cs with
  | [] => simp at hmem
  | [n] =>
    rw [List.mem_singleton] at hmem
    subst hmem
    exact absurd h (by decide)
  | [n, x] =>
    simp only [List.mem_cons, List.not_mem_nil, or_false] at hmem
    rcases hmem with rfl | rfl
    · have hn : isNoteLetter '♭' = false := by decide
      simp [matchTraktor, hn] at h
    · have hx : isAccidentalChar '♭' = false ∧ isMinorMark '♭' = false := by decide
      simp [matchTraktor, hx.1, hx.2] at h
  | [n, x, y] =>
    simp only [List.mem_cons, List.not_mem_nil, or_false] at hmem
    rcases hmem with rfl | rfl | rfl
    · have hn : isNoteLetter '♭' = false := by decide
      simp [matchTraktor, hn] at h
    · have hx : isAccidentalChar '♭' = false := by decide
      simp [matchTraktor, hx] at h
    · have hy : isMinorMark '♭' = false := by decide
      simp [matchTraktor, hy] at h
  | a :: b :: c :: d :: rest => simp [matchTraktor] at h

/-- C1 counterexample: requesting standard-text output for the camelot
input 8B does not return 8B; the table is consulted and yields the
standard name C Major. -/
theorem camelot_bypass_cex :
    KeyWheelConverter.converter "8B" "standard_t" = some "C Major" ∧
    ¬ KeyWheelConverter.converter "8B" "standard_t" = some "8B" := by decide

/-- C1 (amended): for every input whose stripped form matches the camelot
pattern, and for every target format, the converter looks the computed
uppercase camelot string up in the Key Table and returns the field for
the requested target format, empty when absent; likewise for every input
whose stripped form matches the open key pattern with numeric part
between 1 and 12, the computed camelot designation is looked up in the
table; requesting standard-text output for the input 8B returns C Major,
not 8B, because camelot strings are registered as map keys. -/
theorem camelot_open_inputs_are_looked_up :
    (∀ (s fmt : String), matchCamelot (pyStrip s.data) = true →
      KeyWheelConverter.converter s fmt =
        lookupOut (String.mk ((pyStrip s.data).map pyUpperChar)) fmt) ∧
    (∀ (s fmt : String), matchOpen (pyStrip s.data) = true →
      0 < openVal (pyStrip s.data) → openVal (pyStrip s.data) < 13 →
      KeyWheelConverter.converter s fmt =
        lookupOut (String.mk (openConv (pyStrip s.data))) fmt) ∧
    KeyWheelConverter.converter "8B" "standard_t" = some "C Major" := by
  refine ⟨?_, ?_, by decide⟩
  · intro s fmt h
    rw [converter_eq_lookup]
    unfold KeyWheelConverter.parse_input
    rw [parseChars_camelot s.data h]
  · intro s fmt h h2 h3
    rw [converter_eq_lookup]
    unfold KeyWheelConverter.parse_input
    rw [parseChars_open s.data h h2 h3]

/-- C1 witness: instance of the amended statement at the input 8B with
target format standard_t. -/
theorem camelot_open_inputs_are_looked_up_witness :
    KeyWheelConverter.converter "8B" "standard_t" =
      lookupOut (String.mk ((pyStrip "8B".data).map pyUpperChar)) "standard_t" :=
  camelot_open_inputs_are_looked_up.1 "8B" "standard_t" (by decide)

/-- C2 counterexample: 1A is a map key of the Key Table, yet it is
neither a standard-text string nor a traktor string of any canonical
key, so the map keys are not restricted to those two kinds. -/
theorem table_keys_cex :
    (keysFind "1A").isSome = true ∧
    "1A" ∉ canonicalEntries.map KeyEntry.standard_t ∧
    "1A" ∉ canonicalEntries.map KeyEntry.traktor := by decide

/-- C2 (amended): after the table is built, every map key is a camelot,
standard-text or traktor string of a canonical key; all camelot,
standard-text and traktor strings of the 24 keys are present as map
keys; and no open-key string is present as a map key. -/
theorem table_keys_amended :
    (∀ s ∈ KeyMap.keys.map Prod.fst,
      s ∈ canonicalEntries.map KeyEntry.camelot ∨
      s ∈ canonicalEntries.map KeyEntry.standard_t ∨
      s ∈ canonicalEntries.map KeyEntry.traktor) ∧
    (∀ s ∈ canonicalEntries.map KeyEntry.camelot, (keysFind s).isSome = true) ∧
    (∀ s ∈ canonicalEntries.map KeyEntry.standard_t, (keysFind s).isSome = true) ∧
    (∀ s ∈ canonicalEntries.map KeyEntry.traktor, (keysFind s).isSome = true) ∧
    (∀ s ∈ canonicalEntries.map KeyEntry.openKey, keysFind s = none) := by decide

/-- C2 witness: instance of the amended statement showing the open key
string 6m is not a map key. -/
theorem table_keys_amended_witness :
    keysFind "6m" = none :=
  table_keys_amended.2.2.2.2 "6m" (by decide)

/-- C5: the traktor alternate mapping sends each sharp-spelled normalized
input to its flat-spelled equivalent before lookup, with F#m sent to the
enharmonic respelling Gbm; converting C# to traktor yields Db and
converting F#m to traktor yields Gbm. -/
theorem traktor_alias_resolution :
    KeyWheelConverter.parse_input "G#" = "Ab" ∧
    KeyWheelConverter.parse_input "A#" = "Bb" ∧
    KeyWheelConverter.parse_input "C#" = "Db" ∧
    KeyWheelConverter.parse_input "D#" = "Eb" ∧
    KeyWheelConverter.parse_input "G#m" = "Abm" ∧
    KeyWheelConverter.parse_input "A#m" = "Bbm" ∧
    KeyWheelConverter.parse_input "C#m" = "Dbm" ∧
    KeyWheelConverter.parse_input "D#m" = "Ebm" ∧
    KeyWheelConverter.parse_input "F#m" = "Gbm" ∧
    KeyWheelConverter.converter "C#" "traktor" = some "Db" ∧
    KeyWheelConverter.converter "F#m" "traktor" = some "Gbm" := by decide

/-- C6: behavior of the standard-name fallback: case-insensitive
normalization, hyphen insertion before sharp and flat words, glyph
substitution, token capitalization, recapitalization of the hyphenated
suffixes, and standard-text alias application; in particular converting
A-Flat Minor to the symbol form yields the flat glyph spelling, and the
lowercase input g-flat major resolves through the alias table to
F-Sharp Major. -/
theorem standard_fallback_examples :
    KeyWheelConverter.converter "A-Flat Minor" "standard_s" = some "A♭ Minor" ∧
    KeyWheelConverter.converter "g-flat major" "standard_t" = some "F-Sharp Major" ∧
    KeyWheelConverter.parse_input "g-flat major" = "F-Sharp Major" ∧
    KeyWheelConverter.parse_input "G-Flat Major" = "F-Sharp Major" ∧
    KeyWheelConverter.parse_input "D-Sharp Minor" = "E-Flat Minor" ∧
    KeyWheelConverter.parse_input "a sharp minor" = "A-Sharp Minor" ∧
    KeyWheelConverter.parse_input "A♭ Minor" = "A-Flat Minor" ∧
    KeyWheelConverter.parse_input "F# Major" = "F-Sharp Major" := by decide

/-- C7: every input whose parsed form is not a map key makes the
converter return the empty string as a normal outcome for every target
format, with a single diagnostic log event recording the rejected input;
the empty string, whitespace-only strings, Z9, and the out-of-range open
key numbers 0 and 13 are such inputs. -/
theorem unmatched_input_returns_empty :
    (∀ (text fmt : String), keysFind (KeyWheelConverter.parse_input text) = none →
      converterRun (some ()) text fmt = Except.ok ("", [text])) ∧
    keysFind (KeyWheelConverter.parse_input "") = none ∧
    keysFind (KeyWheelConverter.parse_input "   ") = none ∧
    keysFind (KeyWheelConverter.parse_input "Z9") = none ∧
    keysFind (KeyWheelConverter.parse_input "0d") = none ∧
    keysFind (KeyWheelConverter.parse_input "13m") = none :=
  ⟨fun text fmt h => converterRun_unmatched text fmt h,
    by decide, by decide, by decide, by decide, by decide⟩

/-- C7 witness: instance at the input Z9 with target format camelot. -/
theorem unmatched_input_returns_empty_witness :
    converterRun (some ()) "Z9" "camelot" = Except.ok ("", ["Z9"]) :=
  unmatched_input_returns_empty.1 "Z9" "camelot" (by decide)

/-- C9 counterexample: with no api injected, a conversion on the
unmatched input Z9 raises an attribute error instead of completing
normally with the empty string. -/
theorem no_sink_crash_cex :
    converterRun none "Z9" "camelot" = Except.error PyErr.attributeError := by rfl

/-- C9 (amended): when no diagnostic sink has been configured, a
conversion on any unmatched input raises an attribute error while
attempting to log, so the failure to log does propagate and abort the
call; conversions on matched inputs do not touch the sink and behave
exactly as they do with the sink configured. -/
theorem no_sink_behavior :
    (∀ (text fmt : String), keysFind (KeyWheelConverter.parse_input text) = none →
      converterRun none text fmt = Except.error PyErr.attributeError) ∧
    (∀ (text fmt : String) (e : KeyEntry),
      keysFind (KeyWheelConverter.parse_input text) = some e →
      converterRun none text fmt = converterRun (some ()) text fmt) :=
  ⟨fun text fmt h => converterRun_no_api_unmatched text fmt h,
    fun text fmt e h => converterRun_no_api_matched text fmt e h⟩

/-- C9 witness: instance at the unmatched input Q7 with target format
open. -/
theorem no_sink_behavior_witness :
    converterRun none "Q7" "open" = Except.error PyErr.attributeError :=
  no_sink_behavior.1 "Q7" "open" (by decide)

/-- C10: the input consisting of the note letter A, the flat glyph and a
trailing minor marker with no space is rejected for every target format:
it fails the traktor pattern, whose flat glyph substitution can in fact
never fire because the pattern admits no flat glyph, and the
standard-name fallback turns it into A-Flatm, which is not a map key;
yet the equivalent spellings Abm and the spaced symbol form both resolve
to A-Flat Minor. -/
theorem flat_glyph_minor_gap :
    (∀ fmt : String, KeyWheelConverter.converter "A♭m" fmt = some "") ∧
    KeyWheelConverter.parse_input "A♭m" = "A-Flatm" ∧
    keysFind "A-Flatm" = none ∧
    matchTraktor "A♭m".data = false ∧
    (∀ cs : List Char, matchTraktor cs = true → '♭' ∉ cs) ∧
    KeyWheelConverter.converter "Abm" "standard_t" = some "A-Flat Minor" ∧
    KeyWheelConverter.converter "A♭ Minor" "standard_t" = some "A-Flat Minor" :=
  ⟨fun fmt => converter_unmatched "A♭m" fmt (by decide),
    by decide, by decide, by decide, traktor_no_flat, by decide, by decide⟩

/-- C10 witness: instance of the flat glyph absence fact at the matched
traktor string Abm. -/
theorem flat_glyph_minor_gap_witness :
    '♭' ∉ "Abm".data :=
  flat_glyph_minor_gap.2.2.2.2.1 "Abm".data (by decide)

/-- C8: the canonical traktor and standard-text strings of the 24 keys
are fixed points of normalization, so a second normalization pass agrees
with the first. -/
theorem canonical_forms_idempotent :
    ∀ k ∈ canonicalEntries,
      KeyWheelConverter.parse_input k.traktor = k.traktor ∧
      KeyWheelConverter.parse_input k.standard_t = k.standard_t ∧
      KeyWheelConverter.parse_input (KeyWheelConverter.parse_input k.traktor) =
        KeyWheelConverter.parse_input k.traktor ∧
      KeyWheelConverter.parse_input (KeyWheelConverter.parse_input k.standard_t) =
        KeyWheelConverter.parse_input k.standard_t := by decide

/-- C8 witness: instance at the A-Flat Minor record. -/
theorem canonical_forms_idempotent_witness :
    KeyWheelConverter.parse_input "Abm" = "Abm" ∧
    KeyWheelConverter.parse_input "A-Flat Minor" = "A-Flat Minor" ∧
    KeyWheelConverter.parse_input (KeyWheelConverter.parse_input "Abm") =
      KeyWheelConverter.parse_input "Abm" ∧
    KeyWheelConverter.parse_input (KeyWheelConverter.parse_input "A-Flat Minor") =
      KeyWheelConverter.parse_input "A-Flat Minor" :=
  canonical_forms_idempotent ⟨"1A", "6m", "A♭ Minor", "A-Flat Minor", "Abm"⟩ (by decide)

set_option maxHeartbeats 2000000 in
/-- C4: converting the standard-text string of each canonical key to each
of the five target formats returns exactly the recorded field of that
key, and converting the result back to standard-text recovers the same
standard-text string. -/
theorem standard_text_round_trip :
    ∀ k ∈ canonicalEntries, ∀ fmt ∈ outTypes,
      KeyWheelConverter.converter k.standard_t fmt = fieldOf k fmt ∧
      (KeyWheelConverter.converter k.standard_t fmt).bind
        (fun x => KeyWheelConverter.converter x "standard_t") = some k.standard_t := by
  decide

/-- C4 witness: instance at the C Major record with the camelot target
format. -/
theorem standard_text_round_trip_witness :
    KeyWheelConverter.converter "C Major" "camelot" =
      fieldOf ⟨"8B", "1d", "C Major", "C Major", "C"⟩ "camelot" ∧
    (KeyWheelConverter.converter "C Major" "camelot").bind
      (fun x => KeyWheelConverter.converter x "standard_t") = some "C Major" :=
  standard_text_round_trip ⟨"8B", "1d", "C Major", "C Major", "C"⟩ (by decide)
    "camelot" (by decide)

set_option maxHeartbeats 4000000 in
/-- C3: for inputs of one or two digit characters followed by an open key
letter, when the numeric value is between 1 and 12 normalization
produces the decimal rendering of ((n + 6) mod 12) + 1 followed by A for
a minor marker and B for a major marker, while a value of 0 or at least
13 makes the open key branch fall through to the remaining branches; in
particular converting 1d to camelot yields 8B. -/
theorem open_key_rotation :
    (∀ a ∈ digitChars, ∀ c ∈ openLetters,
      (1 ≤ digitsVal [a] → digitsVal [a] ≤ 12 →
        parseChars [a, c] =
          Nat.toDigits 10 (((digitsVal [a] + 6) % 12) + 1) ++
            [if c == 'm' || c == 'M' then 'A' else 'B']) ∧
      (digitsVal [a] = 0 ∨ 13 ≤ digitsVal [a] →
        parseChars [a, c] = parseTraktorStd [a, c])) ∧
    (∀ a ∈ digitChars, ∀ b ∈ digitChars, ∀ c ∈ openLetters,
      (1 ≤ digitsVal [a, b] → digitsVal [a, b] ≤ 12 →
        parseChars [a, b, c] =
          Nat.toDigits 10 (((digitsVal [a, b] + 6) % 12) + 1) ++
            [if c == 'm' || c == 'M' then 'A' else 'B']) ∧
      (digitsVal [a, b] = 0 ∨ 13 ≤ digitsVal [a, b] →
        parseChars [a, b, c] = parseTraktorStd [a, b, c])) ∧
    KeyWheelConverter.converter "1d" "camelot" = some "8B" := by
  decide

/-- C3 witness: instance at the single digit 1 followed by the letter d,
whose rotation yields the camelot designation 8B. -/
theorem open_key_rotation_witness :
    parseChars ['1', 'd'] =
      Nat.toDigits 10 (((digitsVal ['1'] + 6) % 12) + 1) ++
        [if ('d' == 'm' || 'd' == 'M' : Bool) then 'A' else 'B'] :=
  (open_key_rotation.1 '1' (by decide) 'd' (by decide)).1 (by decide) (by decide)
